import Mathlib

/-!
Verification of the real-time scene/animation engine of the Gallant
Solutions immersive web experience: the Portal and World scene
controllers and the phase orchestrator (`src/main.ts`, the portal scene
appended to it, and the world scene in `src/unnamed/part_000`).

JavaScript numbers are modelled as exact rationals (`ℚ`); the only place
where IEEE special values matter to the claims — division by zero in the
orchestrator's scroll handler — is modelled by the tagged type `JsNum`.
The JavaScript `%` operator (truncated remainder, sign of the dividend)
is modelled by `jsRem`.  Transcendental functions (`Math.sin`,
`Math.cos`, `Vector2.length`) only feed fields no claim depends on
numerically; frame-step functions take them as explicit function
parameters, keeping every definition executable.
-/

/-- Result of a JavaScript floating-point operation that can produce the
special values `NaN` and `±Infinity` (here: division). -/
inductive JsNum where
  | nan : JsNum
  | inf : JsNum
  | neginf : JsNum
  | num : ℚ → JsNum
deriving DecidableEq

/-- JavaScript division `a / b` on finite operands: `0 / 0` is `NaN`,
`a / 0` for `a ≠ 0` is a signed infinity, otherwise exact division. -/
def jsDiv (a b : ℚ) : JsNum :=
  if b = 0 then
    if a = 0 then JsNum.nan
    else if 0 < a then JsNum.inf
    else JsNum.neginf
  else JsNum.num (a / b)

/-- The orchestrator's scroll handler (`GallantExperience.initWorld`,
main.ts lines 111–118): `progress = scrollTop / (scrollHeight - clientHeight)`,
with no guard against a zero denominator; the result is passed to
`WorldScene.updateScroll`. -/
def scrollHandlerProgress (scrollTop scrollHeight clientHeight : ℚ) : JsNum :=
  jsDiv scrollTop (scrollHeight - clientHeight)

/-- JavaScript `Math.trunc` / the implicit truncation of the `%`
operator: round toward zero. -/
def jsTrunc (q : ℚ) : ℤ :=
  if 0 ≤ q then ⌊q⌋ else ⌈q⌉

/-- JavaScript remainder `x % y` for `y ≠ 0`: `x - y * trunc (x / y)`,
so the result carries the sign of the dividend `x`. -/
def jsRem (x y : ℚ) : ℚ :=
  x - y * jsTrunc (x / y)

/-- Grid-floor Z offset as a function of elapsed time
(`WorldScene.animate`, part_000 line 344): `-(time * 0.5) % 4`. -/
def gridFloorZ (t : ℚ) : ℚ :=
  jsRem (-(t * (1/2))) 4

/-- The linear-interpolation step shared by the pointer smoothing of both
scenes and the tilt effect (`lerp` in `GallantExperience.setup3DTilt`,
main.ts line 383; `Vector2.lerp(target, f)` performs the same update per
component): `a + (b - a) * t`. -/
def lerp (a b t : ℚ) : ℚ :=
  a + (b - a) * t

/-- Componentwise `lerp` on a 2-vector, as in `this.mouse.lerp(this.targetMouse, f)`. -/
def lerp2 (v w : ℚ × ℚ) (t : ℚ) : ℚ × ℚ :=
  (lerp v.1 w.1 t, lerp v.2 w.2 t)

-- Helper lemmas for the JS remainder.

lemma jsTrunc_of_nonpos {q : ℚ} (h : q ≤ 0) : jsTrunc q = ⌈q⌉ := by
  unfold jsTrunc
  by_cases h0 : 0 ≤ q
  · have hq : q = 0 := le_antisymm h h0
    subst hq
    simp
  · simp [h0]

lemma jsRem_sub_right {x : ℚ} (hx : x ≤ 0) : jsRem (x - 4) 4 = jsRem x 4 := by
  unfold jsRem
  have h4 : (x - 4) / 4 = x / 4 - 1 := by ring
  have hx4 : x / 4 ≤ 0 := by linarith
  have hx4' : x / 4 - 1 ≤ 0 := by linarith
  rw [h4, jsTrunc_of_nonpos hx4', jsTrunc_of_nonpos hx4]
  have hceil : ⌈x / 4 - 1⌉ = ⌈x / 4⌉ - 1 := by
    exact_mod_cast Int.ceil_sub_int (x / 4) 1
  rw [hceil]
  push_cast
  ring

/-- One of the three orbiting data rings of the portal scene
(`PortalScene.init`, ring construction): rotation, current scale and
material opacity, together with the per-ring animation parameters
`speed` and `baseTilt` stored in `userData`. -/
structure OrbitRing where
  rotX : ℚ
  rotY : ℚ
  rotZ : ℚ
  scale : ℚ
  opacity : ℚ
  speed : ℚ
  baseTilt : ℚ
deriving DecidableEq

/-- A 3-component vector of exact rationals (models `THREE.Vector3` /
one particle position). -/
structure Vec3 where
  x : ℚ
  y : ℚ
  z : ℚ
deriving DecidableEq

/-- Observable state of `PortalScene`: camera, shader uniforms, smoothed
pointer, ring and particle transforms, renderer bookkeeping, and the
lifecycle flags `isDestroyed` / `isTransitioning`.  `renders` counts
`renderer.render` calls; `frameLoopActive` models a pending
`requestAnimationFrame` registration; `released` models the disposal of
the GPU resources in `destroy`. -/
structure PortalState where
  camZ : ℚ
  fov : ℚ
  aspect : ℚ
  glowIntensity : ℚ
  coreIntensity : ℚ
  globeTime : ℚ
  coreTime : ℚ
  particleTime : ℚ
  cursorTime : ℚ
  mouseInfluence : ℚ × ℚ
  mouse : ℚ × ℚ
  targetMouse : ℚ × ℚ
  globeRotX : ℚ
  globeRotY : ℚ
  coreRotX : ℚ
  coreRotY : ℚ
  rings : List OrbitRing
  particlesRotX : ℚ
  particlesRotY : ℚ
  particlePositions : List Vec3
  cursorMousePos : Vec3
  rendererW : ℚ
  rendererH : ℚ
  renders : ℕ
  frameLoopActive : Bool
  released : Bool
  isDestroyed : Bool
  isTransitioning : Bool
deriving DecidableEq

/-- The three rings built by `PortalScene.init` from `ringConfigs`:
tilts 0.4 / −0.6 / 0.2 (stored in `rotation.x` and `userData.baseTilt`),
speeds 0.3 / −0.2 / 0.15, initial material opacity 0.25, scale 1. -/
def portalRings : List OrbitRing :=
  [⟨2/5, 0, 0, 1, 1/4, 3/10, 2/5⟩,
   ⟨-(3/5), 0, 0, 1, 1/4, -(1/5), -(3/5)⟩,
   ⟨1/5, 0, 0, 1, 1/4, 3/20, 1/5⟩]

/-- `PortalScene` constructor state for a `w × h` viewport: camera at
`z = 5` with `fov = 60`, glow uniform 0.5, core intensity 1, the three
rings, and the (randomly generated, hence parametric) cosmic-particle
positions `ps`. -/
def portalInit (w h : ℚ) (ps : List Vec3) : PortalState :=
  { camZ := 5, fov := 60, aspect := w / h,
    glowIntensity := 1/2, coreIntensity := 1,
    globeTime := 0, coreTime := 0, particleTime := 0, cursorTime := 0,
    mouseInfluence := (0, 0), mouse := (0, 0), targetMouse := (0, 0),
    globeRotX := 0, globeRotY := 0, coreRotX := 0, coreRotY := 0,
    rings := portalRings,
    particlesRotX := 0, particlesRotY := 0,
    particlePositions := ps,
    cursorMousePos := ⟨0, 0, 0⟩,
    rendererW := w, rendererH := h,
    renders := 0, frameLoopActive := true, released := false,
    isDestroyed := false, isTransitioning := false }

/-- One frame of `PortalScene.animate` at elapsed time `t`.  `sn`
abstracts `Math.sin` and `len` abstracts the Euclidean norm
`Vector2.length` (both only feed decorative fields).  The destroyed
check is the first thing in the frame, exactly as in the source. -/
def portalAnimate (sn : ℚ → ℚ) (len : ℚ → ℚ → ℚ) (t : ℚ)
    (s : PortalState) : PortalState :=
  if s.isDestroyed then s
  else
    let m := lerp2 s.mouse s.targetMouse (1/20)
    let glowTarget := 1/2 + len m.1 m.2 * (1/2)
    { s with
      frameLoopActive := true,
      mouse := m,
      globeRotY := t * (3/20) + m.1 * (3/10),
      globeRotX := sn (t * (1/5)) * (1/10) + m.2 * (1/5),
      coreRotY := -(t * (1/5)),
      coreRotX := t * (1/10),
      globeTime := t,
      mouseInfluence := m,
      glowIntensity := s.glowIntensity + (glowTarget - s.glowIntensity) * (1/20),
      coreTime := t,
      particleTime := t,
      rings := s.rings.map (fun r =>
        { r with rotY := r.rotY + r.speed * (1/100),
                 rotZ := sn (t * (3/10) + r.baseTilt) * (1/20) }),
      particlesRotY := t * (1/50),
      particlesRotX := sn (t * (1/20)) * (1/50),
      cursorMousePos := ⟨m.1 * 3, m.2 * 2, 0⟩,
      cursorTime := t,
      renders := s.renders + 1 }

/-- The portal's window-resize handler: guarded by the destroyed flag,
then updates camera aspect and renderer size. -/
def portalResize (w h : ℚ) (s : PortalState) : PortalState :=
  if s.isDestroyed then s
  else { s with aspect := w / h, rendererW := w, rendererH := h }

/-- `PortalScene.destroy`: sets the destroyed flag, cancels the pending
frame registration, and disposes the renderer / geometry / materials
(three.js `dispose` is a no-op on already-disposed resources, modelled
by the `released` flag). -/
def portalDestroy (s : PortalState) : PortalState :=
  { s with isDestroyed := true, frameLoopActive := false, released := true }

/-- The fixed transition duration of `PortalScene.transitionOut`: 0.7 s. -/
def transitionDuration : ℚ := 7/10

/-- Transition progress at clock time `t` for a transition started at
`startTime`: `Math.min(elapsed / duration, 1)`. -/
def transitionProgress (startTime t : ℚ) : ℚ :=
  min ((t - startTime) / transitionDuration) 1

/-- Cubic ease-out `1 - (1 - p)^3` used by the transition. -/
def easeOutCubic (p : ℚ) : ℚ :=
  1 - (1 - p) ^ 3

/-- Ring update inside `transitionAnimate`: ring `i` is scaled to
`1 + eased * (2 + i * 0.5)` and its opacity set to `0.4 * (1 - eased)`. -/
def updateRingsOut (eased : ℚ) : ℕ → List OrbitRing → List OrbitRing
  | _, [] => []
  | i, r :: rs =>
    { r with scale := 1 + eased * (2 + (i : ℚ) * (1/2)),
             opacity := (2/5) * (1 - eased) } :: updateRingsOut eased (i + 1) rs

/-- One frame of the `transitionAnimate` closure inside
`PortalScene.transitionOut`.  Returns the new state, whether `resolve`
was called this frame, and whether another frame was scheduled.  If the
controller was destroyed, the frame resolves immediately and mutates
nothing; otherwise it applies the eased camera / uniform / ring /
particle updates, renders, and either schedules the next frame
(`progress < 1`) or resolves. -/
def transitionStep (start t : ℚ) (s : PortalState) : PortalState × Bool × Bool :=
  if s.isDestroyed then (s, true, false)
  else
    let progress := transitionProgress start t
    let eased := easeOutCubic progress
    let s' := { s with
      camZ := 5 - eased * (11/2),
      fov := 60 + eased * 40,
      glowIntensity := 1/2 + eased * 3,
      coreIntensity := 1 + eased * 5,
      rings := updateRingsOut eased 0 s.rings,
      particlePositions := s.particlePositions.map (fun v =>
        ⟨v.x * (1 - eased * (1/50)), v.y * (1 - eased * (1/50)),
         v.z * (1 - eased * (1/50))⟩),
      renders := s.renders + 1 }
    if progress < 1 then (s', false, true) else (s', true, false)

/-- Number of `resolve` calls made by the transition loop over a list of
successive frame clock times: each frame runs `transitionStep`; the loop
continues only while the step schedules another frame. -/
def transitionResolves (start : ℚ) : PortalState → List ℚ → ℕ
  | _, [] => 0
  | s, t :: ts =>
    let r := transitionStep start t s
    (if r.2.1 then 1 else 0) + (if r.2.2 then transitionResolves start r.1 ts else 0)

/-- One of the 18 floating wireframe solids of the world scene: current
transform plus the fixed animation descriptor assigned in
`WorldScene.init` (`userData`). -/
structure FloatObj where
  posX : ℚ
  posY : ℚ
  posZ : ℚ
  rotX : ℚ
  rotY : ℚ
  rotZ : ℚ
  startY : ℚ
  startX : ℚ
  floatSpeed : ℚ
  rotSpeed : ℚ
  phase : ℚ
  floatAmplitude : ℚ
deriving DecidableEq

/-- Observable state of `WorldScene`: camera, smoothed pointer, scroll
progress, star-shader time, floating solids, grid-floor offset, fog
times, renderer bookkeeping, and lifecycle flags. -/
structure WorldState where
  camX : ℚ
  camY : ℚ
  camZ : ℚ
  camRotX : ℚ
  camRotY : ℚ
  mouse : ℚ × ℚ
  targetMouse : ℚ × ℚ
  scrollProgress : ℚ
  starTime : ℚ
  floats : List FloatObj
  gridZ : ℚ
  fogTimes : List ℚ
  aspect : ℚ
  rendererW : ℚ
  rendererH : ℚ
  pixelDensity : ℚ
  renders : ℕ
  frameLoopActive : Bool
  released : Bool
  isDestroyed : Bool
deriving DecidableEq

/-- `WorldScene` constructor state for a `w × h` viewport with device
pixel ratio `dpr`: camera at `(0, 2, 10)`, scroll progress 0, pixel
ratio capped at 2, and the (randomly generated, hence parametric)
floating solids and fog-plane time uniforms. -/
def mkWorldState (w h dpr : ℚ) (floats : List FloatObj) (fogs : List ℚ) : WorldState :=
  { camX := 0, camY := 2, camZ := 10, camRotX := 0, camRotY := 0,
    mouse := (0, 0), targetMouse := (0, 0), scrollProgress := 0, starTime := 0,
    floats := floats, gridZ := 0, fogTimes := fogs,
    aspect := w / h, rendererW := w, rendererH := h, pixelDensity := min dpr 2,
    renders := 0, frameLoopActive := true, released := false, isDestroyed := false }

/-- `WorldScene.updateScroll(progress)`: stores the value with no
clamping or validation. -/
def updateScroll (p : ℚ) (s : WorldState) : WorldState :=
  { s with scrollProgress := p }

/-- One frame of `WorldScene.animate` at elapsed time `t`.  `sn` and
`cs` abstract `Math.sin` / `Math.cos`.  Order and constants follow the
source: pointer lerp (0.03), camera Y/Z eased (0.05) toward the scroll
targets, camera X eased (0.02) toward `mouse.x * 1.5`, direct rotation
set, star time, floating solids, grid scroll `-(t * 0.5) % 4`, fog
times, render. -/
def worldAnimate (sn cs : ℚ → ℚ) (t : ℚ) (s : WorldState) : WorldState :=
  if s.isDestroyed then s
  else
    let m := lerp2 s.mouse s.targetMouse (3/100)
    let targetY := 2 - s.scrollProgress * 3
    let targetZ := 10 - s.scrollProgress * 5
    { s with
      frameLoopActive := true,
      mouse := m,
      camY := s.camY + (targetY - s.camY) * (1/20),
      camZ := s.camZ + (targetZ - s.camZ) * (1/20),
      camX := s.camX + (m.1 * (3/2) - s.camX) * (1/50),
      camRotY := -(m.1 * (1/50)),
      camRotX := m.2 * (1/100),
      starTime := t,
      floats := s.floats.map (fun o =>
        { o with
          posY := o.startY + sn (t * o.floatSpeed + o.phase) *
            (if o.floatAmplitude = 0 then (1/2) else o.floatAmplitude),
          posX := o.startX + cs (t * o.floatSpeed * (1/2) + o.phase) * (3/10),
          rotX := o.rotX + o.rotSpeed * (3/1000),
          rotY := o.rotY + o.rotSpeed * (1/250),
          rotZ := o.rotZ + o.rotSpeed * (1/1000) }),
      gridZ := gridFloorZ t,
      fogTimes := s.fogTimes.map (fun _ => t),
      renders := s.renders + 1 }

/-- The world's window-resize handler: guarded by the destroyed flag,
then updates aspect, renderer size, and caps the pixel ratio at 1.5. -/
def worldResize (w h dpr : ℚ) (s : WorldState) : WorldState :=
  if s.isDestroyed then s
  else { s with aspect := w / h, rendererW := w, rendererH := h,
                pixelDensity := min dpr (3/2) }

/-- `WorldScene.destroy`: destroyed flag, frame-loop cancellation,
resource disposal (idempotent at the three.js level). -/
def worldDestroy (s : WorldState) : WorldState :=
  { s with isDestroyed := true, frameLoopActive := false, released := true }

/-- Orchestrator phase (`GallantExperience.currentPhase`). -/
inductive Phase where
  | portal : Phase
  | world : Phase
deriving DecidableEq

/-- Observable orchestrator state: the current phase plus counters for
portal-destroy calls and world-scene constructions performed by
`enterWorld`. -/
structure OrchState where
  phase : Phase
  portalDestroys : ℕ
  worldConstructs : ℕ
deriving DecidableEq

/-- `GallantExperience.enterWorld`: the guard
`if (this.currentPhase !== 'portal') return` and the assignment
`this.currentPhase = 'world'` form the synchronous prefix of the async
function, so on the single-threaded event queue a second trigger
observes the updated phase and no-ops; the one transition that passes
the guard destroys the portal controller once and constructs the world
controller once. -/
def enterWorld (s : OrchState) : OrchState :=
  if s.phase ≠ Phase.portal then s
  else { phase := Phase.world,
         portalDestroys := s.portalDestroys + 1,
         worldConstructs := s.worldConstructs + 1 }

/-- Initial orchestrator state: portal phase, nothing destroyed or
constructed. -/
def initOrch : OrchState := ⟨Phase.portal, 0, 0⟩

/-- `n` successive "enter" triggers applied to the orchestrator. -/
def runTriggers : OrchState → ℕ → OrchState
  | s, 0 => s
  | s, n + 1 => runTriggers (enterWorld s) n

/-- C1: the claim states that when `scrollHeight == clientHeight` the
orchestrator passes progress `0` to `updateScroll`.  The code divides by
`scrollHeight - clientHeight = 0` with no clamp: at `scrollTop = 0`,
`scrollHeight = clientHeight = 600` the handler computes `0 / 0 = NaN`
(not `0`) and hands it to the world controller. -/
theorem scrollHandler_nan_when_no_overflow :
    scrollHandlerProgress 0 600 600 = JsNum.nan ∧ JsNum.nan ≠ JsNum.num 0 := by
  constructor
  · unfold scrollHandlerProgress jsDiv
    norm_num
  · intro h
    exact JsNum.noConfusion h

/-- C2 counterexample: at `t = 0` (with `0 ≤ 0`) the grid-floor offset is
`0`, but at `t + 4 = 4` it is `-2`: the offset is NOT periodic with
period 4 in `t`. -/
theorem gridFloorZ_period4_fails :
    (0 : ℚ) ≤ 0 ∧ gridFloorZ 0 ≠ gridFloorZ (0 + 4) := by
  refine ⟨le_refl 0, ?_⟩
  have h0 : gridFloorZ 0 = 0 := by
    unfold gridFloorZ jsRem jsTrunc
    norm_num
  have hc : (0 : ℚ) + 4 = 4 := by norm_num
  have h4 : gridFloorZ 4 = -2 := by
    unfold gridFloorZ jsRem jsTrunc
    norm_num
  rw [h0, hc, h4]
  norm_num

/-- C2 amended: the grid-floor Z offset `-(t * 0.5) % 4` is periodic in
`t` with period 8 (not 4): for every `t ≥ 0`,
`gridFloorZ (t + 8) = gridFloorZ t`. -/
theorem gridFloorZ_period8 (t : ℚ) (ht : 0 ≤ t) :
    gridFloorZ (t + 8) = gridFloorZ t := by
  unfold gridFloorZ
  have harg : -((t + 8) * (1/2)) = -(t * (1/2)) - 4 := by ring
  rw [harg]
  exact jsRem_sub_right (by linarith)

/-- C2 witness: the period-8 property at the concrete time `t = 2`. -/
theorem gridFloorZ_period8_witness :
    (0 : ℚ) ≤ 2 ∧ gridFloorZ (2 + 8) = gridFloorZ 2 :=
  ⟨by norm_num, gridFloorZ_period8 2 (by norm_num)⟩

/-- C9: one pointer-smoothing step `current + (target - current) * f`
with factor `f ∈ (0,1)` never increases the distance to the target:
`|lerp c tgt f - tgt| ≤ |c - tgt|` for all `c`, `tgt`. -/
theorem lerp_step_contracts (c tgt f : ℚ) (h0 : 0 < f) (h1 : f < 1) :
    |lerp c tgt f - tgt| ≤ |c - tgt| := by
  have hrw : lerp c tgt f - tgt = (c - tgt) * (1 - f) := by
    unfold lerp; ring
  rw [hrw, abs_mul]
  have h1f : |1 - f| = 1 - f := abs_of_nonneg (by linarith)
  rw [h1f]
  calc |c - tgt| * (1 - f) ≤ |c - tgt| * 1 := by
        apply mul_le_mul_of_nonneg_left (by linarith) (abs_nonneg _)
    _ = |c - tgt| := mul_one _

-- Helper lemmas for the portal transition.

lemma transitionDuration_pos : (0 : ℚ) < transitionDuration := by
  norm_num [transitionDuration]

lemma transitionProgress_mono (start : ℚ) {t1 t2 : ℚ} (h : t1 ≤ t2) :
    transitionProgress start t1 ≤ transitionProgress start t2 := by
  unfold transitionProgress
  apply min_le_min _ le_rfl
  exact (div_le_div_iff_of_pos_right transitionDuration_pos).mpr (by linarith)

lemma transitionProgress_le_one (start t : ℚ) : transitionProgress start t ≤ 1 :=
  min_le_right _ _

lemma transitionProgress_eq_one {start t : ℚ} (h : start + transitionDuration ≤ t) :
    transitionProgress start t = 1 := by
  unfold transitionProgress
  apply min_eq_right
  rw [le_div_iff₀ transitionDuration_pos, one_mul]
  linarith

lemma transitionStep_isDestroyed (start t : ℚ) (s : PortalState) :
    ((transitionStep start t s).1).isDestroyed = s.isDestroyed := by
  unfold transitionStep
  by_cases hd : s.isDestroyed = true
  · simp [hd]
  · by_cases hp : transitionProgress start t < 1
    · simp [hd, hp]
    · simp [hd, hp]

lemma transitionStep_destroyed {start t : ℚ} {s : PortalState}
    (hd : s.isDestroyed = true) :
    transitionStep start t s = (s, true, false) := by
  unfold transitionStep
  simp [hd]

lemma transitionStep_continue {start t : ℚ} {s : PortalState}
    (hd : s.isDestroyed = false) (hp : transitionProgress start t < 1) :
    (transitionStep start t s).2.1 = false ∧ (transitionStep start t s).2.2 = true := by
  unfold transitionStep
  simp [hd, hp]

lemma transitionStep_resolve {start t : ℚ} {s : PortalState}
    (hd : s.isDestroyed = false) (hp : ¬ transitionProgress start t < 1) :
    (transitionStep start t s).2.1 = true ∧ (transitionStep start t s).2.2 = false := by
  unfold transitionStep
  simp [hd, hp]

lemma transitionResolves_cons (start t : ℚ) (s : PortalState) (ts : List ℚ) :
    transitionResolves start s (t :: ts) =
      (if (transitionStep start t s).2.1 then 1 else 0) +
      (if (transitionStep start t s).2.2
        then transitionResolves start (transitionStep start t s).1 ts else 0) := rfl

lemma transitionResolves_le_one (start : ℚ) :
    ∀ (ts : List ℚ) (s : PortalState), transitionResolves start s ts ≤ 1 := by
  intro ts
  induction ts with
  | nil =>
    intro s
    simp [transitionResolves]
  | cons t ts ih =>
    intro s
    rw [transitionResolves_cons]
    by_cases hd : s.isDestroyed = true
    · rw [transitionStep_destroyed hd]
      simp
    · have hd' : s.isDestroyed = false := by
        cases hb : s.isDestroyed
        · rfl
        · exact absurd hb hd
      by_cases hp : transitionProgress start t < 1
      · rw [(transitionStep_continue hd' hp).1, (transitionStep_continue hd' hp).2]
        simpa using ih (transitionStep start t s).1
      · rw [(transitionStep_resolve hd' hp).1, (transitionStep_resolve hd' hp).2]
        simp

lemma transitionResolves_eq_one (start : ℚ) :
    ∀ (ts : List ℚ) (s : PortalState), s.isDestroyed = false →
      (∃ t ∈ ts, start + transitionDuration ≤ t) →
      transitionResolves start s ts = 1 := by
  intro ts
  induction ts with
  | nil =>
    intro s _ hex
    obtain ⟨t, ht, _⟩ := hex
    simp at ht
  | cons t ts ih =>
    intro s hd hex
    rw [transitionResolves_cons]
    by_cases hp : transitionProgress start t < 1
    · have hne : ¬ (start + transitionDuration ≤ t) := by
        intro hge
        rw [transitionProgress_eq_one hge] at hp
        exact lt_irrefl 1 hp
      obtain ⟨u, hu, hud⟩ := hex
      have hu' : u ∈ ts := by
        rcases List.mem_cons.mp hu with h1 | h2
        · exact absurd (h1 ▸ hud) hne
        · exact h2
      have hd' : ((transitionStep start t s).1).isDestroyed = false := by
        rw [transitionStep_isDestroyed]
        exact hd
      rw [(transitionStep_continue hd hp).1, (transitionStep_continue hd hp).2]
      simpa using ih (transitionStep start t s).1 hd' ⟨u, hu', hud⟩
    · rw [(transitionStep_resolve hd hp).1, (transitionStep_resolve hd hp).2]
      simp

/-- C3: the transition-out progress `min(elapsed / 0.7, 1)` is monotone
in the frame clock time, never exceeds 1, equals exactly 1 at or after
the 0.7 s duration, and over any sequence of frames the loop calls
`resolve` at most once — and exactly once as soon as some frame reaches
the duration (on a non-destroyed controller). -/
theorem transitionOut_progress_correct :
    (∀ start t1 t2 : ℚ, t1 ≤ t2 →
      transitionProgress start t1 ≤ transitionProgress start t2) ∧
    (∀ start t : ℚ, transitionProgress start t ≤ 1) ∧
    (∀ start t : ℚ, start + transitionDuration ≤ t → transitionProgress start t = 1) ∧
    (∀ (start : ℚ) (s : PortalState) (ts : List ℚ),
      transitionResolves start s ts ≤ 1) ∧
    (∀ (start : ℚ) (s : PortalState) (ts : List ℚ), s.isDestroyed = false →
      (∃ t ∈ ts, start + transitionDuration ≤ t) →
      transitionResolves start s ts = 1) :=
  ⟨fun start _ _ h => transitionProgress_mono start h,
   fun start t => transitionProgress_le_one start t,
   fun _ _ h => transitionProgress_eq_one h,
   fun start s ts => transitionResolves_le_one start ts s,
   fun start s ts hd hex => transitionResolves_eq_one start ts s hd hex⟩

/-- C3 witness: monotonicity at `t1 = 0 ≤ t2 = 1`, and a transition on the
freshly constructed portal state resolving exactly once over the single
frame at `t = 1 ≥ 0 + 0.7`. -/
theorem transitionOut_progress_correct_witness :
    ((0 : ℚ) ≤ 1 ∧ transitionProgress 0 0 ≤ transitionProgress 0 1) ∧
    ((portalInit 1920 1080 []).isDestroyed = false ∧
      (∃ t ∈ [(1 : ℚ)], (0 : ℚ) + transitionDuration ≤ t) ∧
      transitionResolves 0 (portalInit 1920 1080 []) [1] = 1) :=
  ⟨⟨by norm_num, transitionOut_progress_correct.1 0 0 1 (by norm_num)⟩,
   ⟨rfl, ⟨1, by simp, by norm_num [transitionDuration]⟩,
    transitionOut_progress_correct.2.2.2.2 0 (portalInit 1920 1080 []) [1] rfl
      ⟨1, by simp, by norm_num [transitionDuration]⟩⟩⟩

/-- C4: triggering "enter" twice from the initial (portal) phase yields
exactly one portal-destroy call and exactly one world-scene
construction, ends in the world phase, and any trigger outside the
portal phase leaves the orchestrator state unchanged. -/
theorem enterWorld_exactly_once :
    (runTriggers initOrch 2).portalDestroys = 1 ∧
    (runTriggers initOrch 2).worldConstructs = 1 ∧
    (runTriggers initOrch 2).phase = Phase.world ∧
    (∀ s : OrchState, s.phase ≠ Phase.portal → enterWorld s = s) := by
  refine ⟨by decide, by decide, by decide, ?_⟩
  intro s h
  unfold enterWorld
  simp [h]

/-- C4 witness: a trigger in the world phase is the identity. -/
theorem enterWorld_exactly_once_witness :
    (OrchState.mk Phase.world 1 1).phase ≠ Phase.portal ∧
    enterWorld (OrchState.mk Phase.world 1 1) = OrchState.mk Phase.world 1 1 :=
  ⟨by decide, enterWorld_exactly_once.2.2.2 (OrchState.mk Phase.world 1 1) (by decide)⟩

/-- C5: once `isDestroyed` is true, a queued frame callback of either
controller is a no-op (the flag is checked first thing each frame: no
scene update, no render), and the window-resize handler of a destroyed
controller updates neither camera aspect nor renderer size. -/
theorem destroyed_frame_and_resize_noop :
    (∀ (sn : ℚ → ℚ) (len : ℚ → ℚ → ℚ) (t : ℚ) (s : PortalState),
      s.isDestroyed = true → portalAnimate sn len t s = s) ∧
    (∀ (w h : ℚ) (s : PortalState), s.isDestroyed = true → portalResize w h s = s) ∧
    (∀ (sn cs : ℚ → ℚ) (t : ℚ) (s : WorldState),
      s.isDestroyed = true → worldAnimate sn cs t s = s) ∧
    (∀ (w h dpr : ℚ) (s : WorldState), s.isDestroyed = true → worldResize w h dpr s = s) := by
  refine ⟨?_, ?_, ?_, ?_⟩
  · intro sn len t s hd
    unfold portalAnimate
    simp [hd]
  · intro w h s hd
    unfold portalResize
    simp [hd]
  · intro sn cs t s hd
    unfold worldAnimate
    simp [hd]
  · intro w h dpr s hd
    unfold worldResize
    simp [hd]

/-- C5 witness: frame and resize callbacks on concretely destroyed
portal and world controllers leave the state untouched. -/
theorem destroyed_frame_and_resize_noop_witness :
    (portalDestroy (portalInit 1920 1080 [])).isDestroyed = true ∧
    portalAnimate (fun q => q) (fun a b => a + b) 2
      (portalDestroy (portalInit 1920 1080 [])) = portalDestroy (portalInit 1920 1080 []) ∧
    portalResize 800 600 (portalDestroy (portalInit 1920 1080 [])) =
      portalDestroy (portalInit 1920 1080 []) ∧
    (worldDestroy (mkWorldState 1920 1080 1 [] [])).isDestroyed = true ∧
    worldAnimate (fun q => q) (fun q => q) 2
      (worldDestroy (mkWorldState 1920 1080 1 [] [])) = worldDestroy (mkWorldState 1920 1080 1 [] []) ∧
    worldResize 800 600 2 (worldDestroy (mkWorldState 1920 1080 1 [] [])) =
      worldDestroy (mkWorldState 1920 1080 1 [] []) :=
  ⟨rfl,
   destroyed_frame_and_resize_noop.1 (fun q => q) (fun a b => a + b) 2 _ rfl,
   destroyed_frame_and_resize_noop.2.1 800 600 _ rfl,
   rfl,
   destroyed_frame_and_resize_noop.2.2.1 (fun q => q) (fun q => q) 2 _ rfl,
   destroyed_frame_and_resize_noop.2.2.2 800 600 2 _ rfl⟩

/-- C6: calling destroy a second time on either controller changes
nothing: the destroyed flag, the cancelled frame loop and the released
resources are exactly as after the first call (and the operation is a
total function — it raises nothing). -/
theorem destroy_idempotent :
    (∀ s : PortalState, portalDestroy (portalDestroy s) = portalDestroy s) ∧
    (∀ s : WorldState, worldDestroy (worldDestroy s) = worldDestroy s) :=
  ⟨fun _ => rfl, fun _ => rfl⟩

/-- C7: on any non-destroyed portal state, a transition frame at or
after the 0.7 s duration (eased cubic value 1) sets the camera
field-of-view to exactly `60 + 1·40 = 100` and the camera Z position to
exactly `5 − 1·5.5 = −0.5`. -/
theorem transitionOut_final_fov_camZ (start t : ℚ) (s : PortalState)
    (hd : s.isDestroyed = false) (ht : start + transitionDuration ≤ t) :
    (transitionStep start t s).1.fov = 100 ∧
    (transitionStep start t s).1.camZ = -(1/2) := by
  have hp : transitionProgress start t = 1 := transitionProgress_eq_one ht
  unfold transitionStep
  simp [hd, hp, easeOutCubic]
  norm_num

/-- C7 witness: the freshly constructed 1920×1080 portal state, with the
transition started at clock time 0 and a frame at `t = 1 ≥ 0.7`. -/
theorem transitionOut_final_fov_camZ_witness :
    (portalInit 1920 1080 []).isDestroyed = false ∧
    ((0 : ℚ) + transitionDuration ≤ 1) ∧
    ((transitionStep 0 1 (portalInit 1920 1080 [])).1.fov = 100 ∧
      (transitionStep 0 1 (portalInit 1920 1080 [])).1.camZ = -(1/2)) :=
  ⟨rfl, by norm_num [transitionDuration],
   transitionOut_final_fov_camZ 0 1 (portalInit 1920 1080 []) rfl
     (by norm_num [transitionDuration])⟩

/-- C8: every world frame moves camera Y and Z by 5% of the remaining
distance toward `targetY = 2 − 3·progress` and `targetZ = 10 − 5·progress`;
in particular after `updateScroll 0.5` one frame at `t = 0` from the
constructor state moves camera Y from 2 to `2 + (0.5 − 2)·0.05 = 77/40`. -/
theorem worldFrame_camera_easing :
    (∀ (sn cs : ℚ → ℚ) (t : ℚ) (s : WorldState), s.isDestroyed = false →
      (worldAnimate sn cs t s).camY - s.camY =
        ((2 - s.scrollProgress * 3) - s.camY) * (1/20) ∧
      (worldAnimate sn cs t s).camZ - s.camZ =
        ((10 - s.scrollProgress * 5) - s.camZ) * (1/20)) ∧
    (∀ sn cs : ℚ → ℚ,
      (worldAnimate sn cs 0 (updateScroll (1/2) (mkWorldState 1920 1080 1 [] []))).camY
        = 77/40) := by
  constructor
  · intro sn cs t s hd
    unfold worldAnimate
    simp [hd]
  · intro sn cs
    unfold worldAnimate updateScroll mkWorldState
    norm_num

/-- C8 witness: the per-frame easing identity at the constructor state. -/
theorem worldFrame_camera_easing_witness :
    (mkWorldState 1920 1080 1 [] []).isDestroyed = false ∧
    ((worldAnimate (fun q => q) (fun q => q) 0 (mkWorldState 1920 1080 1 [] [])).camY -
        (mkWorldState 1920 1080 1 [] []).camY =
      ((2 - (mkWorldState 1920 1080 1 [] []).scrollProgress * 3) -
        (mkWorldState 1920 1080 1 [] []).camY) * (1/20) ∧
     (worldAnimate (fun q => q) (fun q => q) 0 (mkWorldState 1920 1080 1 [] [])).camZ -
        (mkWorldState 1920 1080 1 [] []).camZ =
      ((10 - (mkWorldState 1920 1080 1 [] []).scrollProgress * 5) -
        (mkWorldState 1920 1080 1 [] []).camZ) * (1/20)) :=
  ⟨rfl, worldFrame_camera_easing.1 (fun q => q) (fun q => q) 0 _ rfl⟩

/-- C9 witness: one smoothing step with the world-scene factor `0.05`…
actually the concrete factor `1/20`, from current 0 toward target 1. -/
theorem lerp_step_contracts_witness :
    (0 : ℚ) < 1/20 ∧ (1/20 : ℚ) < 1 ∧
    |lerp 0 1 (1/20) - 1| ≤ |(0 : ℚ) - 1| :=
  ⟨by norm_num, by norm_num,
   lerp_step_contracts 0 1 (1/20) (by norm_num) (by norm_num)⟩

/-- C10: if the portal controller is destroyed while a transition is
pending, the next transition frame observes the destroyed flag, mutates
nothing (the state is returned untouched: no camera, uniform or particle
update and no render), resolves the pending promise, and stops — over
the whole remaining frame list the promise is resolved exactly once. -/
theorem transition_frame_after_destroy (start t : ℚ) (s : PortalState)
    (ts : List ℚ) (hd : s.isDestroyed = true) :
    transitionStep start t s = (s, true, false) ∧
    transitionResolves start s (t :: ts) = 1 := by
  have h1 : transitionStep start t s = (s, true, false) := transitionStep_destroyed hd
  refine ⟨h1, ?_⟩
  rw [transitionResolves_cons, h1]
  simp

/-- C10 witness: a destroyed 1920×1080 portal state with one queued
transition frame at `t = 1/10` and more frames pending. -/
theorem transition_frame_after_destroy_witness :
    (portalDestroy (portalInit 1920 1080 [])).isDestroyed = true ∧
    (transitionStep 0 (1/10) (portalDestroy (portalInit 1920 1080 [])) =
      (portalDestroy (portalInit 1920 1080 []), true, false) ∧
     transitionResolves 0 (portalDestroy (portalInit 1920 1080 [])) [1/10, 1/5] = 1) :=
  ⟨rfl, transition_frame_after_destroy 0 (1/10) (portalDestroy (portalInit 1920 1080 []))
    [1/5] rfl⟩
